import Mathlib

/-!
Verification of the client-side windowing, buffering and time-reconstruction
logic of the web dashboard (static/js modules).

The JavaScript source is shallowly embedded: the mutable globals of each
module become fields of an explicit state structure, and each handler
becomes a pure state-transition function.  All JS numbers occurring here
are integers at runtime (sample counts, positions, window sizes) and are
modelled as `ℤ`; values obtained by real division (temperatures, time
ratios) are modelled as `ℚ`.
-/

/-! ## history.js : window cursor over the server-held archive

Globals `currentWindowSize`, `currentPosition`, `totalDataCount`,
`maxSliderPosition` (history.js lines 5-8) form the cursor state. -/

structure HistState where
  currentWindowSize : ℤ
  currentPosition : ℤ
  totalDataCount : ℤ
  maxSliderPosition : ℤ
deriving DecidableEq, Repr

/-- Directions accepted by `navigateData` (history.js line 279). -/
inductive NavDirection
  | start
  | prev
  | next
  | end_
deriving DecidableEq, Repr

/-- Embedding of `navigateData(direction)` (history.js lines 279-301).
`const step = Math.floor(currentWindowSize / 2)` is integer floor division,
which for the positive divisor 2 coincides with `ℤ` division (`Int.ediv`). -/
def navigateData (direction : NavDirection) (s : HistState) : HistState :=
  let step := s.currentWindowSize / 2
  match direction with
  | .start => { s with currentPosition := 0 }
  | .prev => { s with currentPosition := max 0 (s.currentPosition - step) }
  | .next => { s with currentPosition := min s.maxSliderPosition (s.currentPosition + step) }
  | .end_ => { s with currentPosition := s.maxSliderPosition }

/-- Embedding of `changeWindowSize(newSize)` (history.js lines 258-276).
The sentinel `-1` selects the whole dataset; otherwise the position is
recomputed only when the window would spill past the end of the dataset.
`maxSliderPosition` is not touched by this handler (it is refreshed later
from the server response). -/
def changeWindowSize (newSize : ℤ) (s : HistState) : HistState :=
  if newSize = -1 then
    { s with currentWindowSize := s.totalDataCount, currentPosition := 0 }
  else
    { s with
      currentWindowSize := newSize,
      currentPosition :=
        if s.totalDataCount < s.currentPosition + newSize then
          max 0 (s.totalDataCount - newSize)
        else s.currentPosition }

/-- Embedding of `sliderNavigation(value)` (history.js lines 304-307):
`currentPosition = parseInt(value)` — the parsed value is stored as-is,
with no clamping of any kind. -/
def sliderNavigation (value : ℤ) (s : HistState) : HistState :=
  { s with currentPosition := value }

/-- The full invariant stated by the specification for the window cursor:
`0 ≤ position ≤ maxPosition ≤ totalCount`,
`maxPosition = max(0, totalCount − windowSize)`, and the window fits inside
the dataset except in the full-window degenerate case. -/
def windowInvariant (s : HistState) : Prop :=
  0 ≤ s.currentPosition ∧
  s.currentPosition ≤ s.maxSliderPosition ∧
  s.maxSliderPosition ≤ s.totalDataCount ∧
  s.maxSliderPosition = max 0 (s.totalDataCount - s.currentWindowSize) ∧
  (s.currentPosition + s.currentWindowSize ≤ s.totalDataCount ∨
    (s.totalDataCount ≤ s.currentWindowSize ∧ s.currentPosition = 0))

instance (s : HistState) : Decidable (windowInvariant s) := by
  unfold windowInvariant; exact inferInstance

/-! ## notifications.js : bounded notification buffer

`NotificationManager` keeps `notifications` (an array of DOM elements,
modelled as a list of ids), `totalCount` (monotone counter of all pushes)
and a floating badge element (`notificationCounter`) whose text shows the
number of active notifications. -/

/-- Core push of `showNotification` (notifications.js lines 80-86): append,
then — only when the length exceeds the capacity — `shift()` exactly one
element (the oldest).  The deferred `removeNotification(oldNotification)`
splice is a no-op on the array because the element was already shifted out. -/
def bufPush {α : Type} (cap : ℕ) (buf : List α) (x : α) : List α :=
  let appended := buf ++ [x]
  if cap < appended.length then appended.drop 1 else appended

/-- Folding `bufPush` over a sequence of pushed items, starting empty. -/
def pushAll {α : Type} (cap : ℕ) (items : List α) : List α :=
  items.foldl (bufPush cap) []

structure NotifState where
  notifications : List ℕ
  totalCount : ℕ
  counterExists : Bool
  counterText : String
deriving DecidableEq, Repr

/-- Badge text shown by `updateCounter` (notifications.js line 242):
`length > 99 ? '99+' : length`. -/
def displayCount (n : ℕ) : String :=
  if 99 < n then "99+" else toString n

/-- Embedding of `updateCounter` (notifications.js lines 226-252): the
badge element is created only when missing and `totalCount > 0`; when
present its text is set from the current buffer length. -/
def updateCounter (s : NotifState) : NotifState :=
  if s.counterExists || 0 < s.totalCount then
    { s with counterExists := true,
             counterText := displayCount s.notifications.length }
  else s

/-- Embedding of `showNotification` (notifications.js lines 40-95):
increment `totalCount`, append, evict the oldest element when over the
capacity `maxNotifications = 10`, then refresh the badge. -/
def showNotification (x : ℕ) (s : NotifState) : NotifState :=
  updateCounter
    { s with totalCount := s.totalCount + 1,
             notifications := bufPush 10 s.notifications x }

/-- Embedding of `removeNotification` (notifications.js lines 166-181): the
first occurrence of the element is spliced out of the array; the badge is
NOT refreshed here — `updateCounter` is never called on this path. -/
def removeNotification (x : ℕ) (s : NotifState) : NotifState :=
  { s with notifications := s.notifications.erase x }

/-- Embedding of `clearAll` (notifications.js lines 254-262): empty the
array, then refresh the badge. -/
def clearAll (s : NotifState) : NotifState :=
  updateCounter { s with notifications := [] }

/-- Initial manager state (constructor, notifications.js lines 4-11). -/
def notifInit : NotifState :=
  ⟨[], 0, false, ""⟩

/-! ## Realtime module (unnamed part 002) : temperature rolling history

Globals `temperatureHistory = { values: [], times: [] }` and
`MAX_TEMP_DISPLAY = 1200`. -/

def MAX_TEMP_DISPLAY : ℕ := 1200

structure TempHistory where
  values : List ℚ
  times : List ℤ
deriving DecidableEq, Repr

/-- Embedding of the TEMP branch of `updateChart` (part 002 lines 500-528):
the raw value is divided by 100 and appended to `temperatureHistory.values`,
and `(new length − 1) * 2` minutes is appended to `.times`.  The stored
arrays are never truncated; only the display below takes a slice. -/
def tempChartPush (raw : ℚ) (h : TempHistory) : TempHistory :=
  { values := h.values ++ [raw / 100],
    times := h.times ++ [(h.values.length : ℤ) * 2] }

/-- JS `array.slice(-n)` for `n > 0`: the last `n` elements (the whole
array when shorter).  Used as `slice(-MAX_TEMP_DISPLAY)` for the chart. -/
def sliceLast {α : Type} (n : ℕ) (l : List α) : List α :=
  l.drop (l.length - n)

/-- Iterated `data_update` TEMP pushes starting from the empty history
(raw value 3650, i.e. 36.5 °C, is arbitrary). -/
def tempChartPushN : ℕ → TempHistory
  | 0 => ⟨[], []⟩
  | n + 1 => tempChartPush 3650 (tempChartPushN n)

/-! ## history.js : proportional (TEMP) window time bounds -/

/-- Embedding of the TEMP branch of `renderHistoricalChart` (history.js
lines 356-365): the window time bounds are derived from the fraction of
the dataset covered, scaled by the real session duration. -/
def histTempWindowBounds (sessionStartMs sessionDurationMs : ℚ)
    (currentPosition totalDataCount numSamples : ℚ) : ℚ × ℚ :=
  let progressFrac := currentPosition / totalDataCount
  let windowFrac := numSamples / totalDataCount
  (sessionStartMs + sessionDurationMs * progressFrac,
    sessionStartMs + sessionDurationMs * (progressFrac + windowFrac))

/-! ## Anomaly payload defaulting (unnamed part 000 and notifications.js) -/

/-- Push-event payload with possibly missing numeric fields. -/
structure AnomalyPayload where
  reconstruction_error : Option ℚ
  threshold : Option ℚ
  temperature : Option ℚ
  duration_readings : Option ℤ
deriving DecidableEq, Repr

structure TempCardMetrics where
  temperature : ℚ
  threshold : ℚ
  durationMinutes : ℤ
deriving DecidableEq, Repr

structure EcgCardMetrics where
  reconstructionError : ℚ
  threshold : ℚ
  errorPercent : ℚ
deriving DecidableEq, Repr

/-- Embedding of the TEMP branch of `createAnomalyCard` (part 000 lines
251-286): `temperature ?? 0`, `threshold ?? 0`, `duration_readings ?? 0`
(shown as `durationReadings * 2` minutes).  Total: a missing field becomes
its default instead of an exception. -/
def createAnomalyCardTemp (a : AnomalyPayload) : TempCardMetrics :=
  { temperature := a.temperature.getD 0,
    threshold := a.threshold.getD 0,
    durationMinutes := a.duration_readings.getD 0 * 2 }

/-- Embedding of the ECG/PIEZO branch of `createAnomalyCard` (part 000
lines 287-313): `reconstruction_error ?? 0`, `threshold ?? 1` (1 avoids a
division by zero), and the exceedance percentage guarded by
`threshold > 0`. -/
def createAnomalyCardEcg (a : AnomalyPayload) : EcgCardMetrics :=
  let reconstructionError := a.reconstruction_error.getD 0
  let threshold := a.threshold.getD 1
  { reconstructionError := reconstructionError,
    threshold := threshold,
    errorPercent :=
      if 0 < threshold then reconstructionError / threshold * 100 else 0 }

/-- Embedding of the numeric detail values of `showNotification`
(notifications.js lines 47-72): `reconstruction_error ?? 0`,
`threshold ?? 0`, `temperature ?? 0`. -/
def notificationDetailValues (a : AnomalyPayload) : ℚ × ℚ × ℚ :=
  (a.reconstruction_error.getD 0, a.threshold.getD 0, a.temperature.getD 0)

/-! ## Realtime module (unnamed part 002) : updateStatistics -/

structure RealtimeState where
  shouldUpdateCounters : Bool
  frozenEcg : ℤ
  frozenAdc : ℤ
  frozenPackets : ℤ
  frozenTemp : Option ℚ
  tempValues : List ℚ
  tempTimes : List ℤ
  lastTemperature : Option ℚ
  displayedTemp : Option ℚ
deriving DecidableEq, Repr

/-- Status snapshot payload (`data.stats` fields used by
`updateStatistics`). -/
structure StatusData where
  currentTemp : Option ℤ
  ecgSamples : ℤ
  adcSamples : ℤ
  packetCount : ℤ
deriving DecidableEq, Repr

/-- Temperature push inside `updateStatistics` (part 002 lines 582-588). -/
def pushTemperature (tempC : ℚ) (s : RealtimeState) : RealtimeState :=
  { s with lastTemperature := some tempC,
           tempValues := s.tempValues ++ [tempC],
           tempTimes := s.tempTimes ++ [(s.tempValues.length : ℤ) * 2] }

/-- Embedding of `updateStatistics` (part 002 lines 570-635).  When
`shouldUpdateCounters` is false the handler returns at once; otherwise the
current temperature (raw / 100) is displayed and recorded in
`frozenStats.temp`, pushed into the history when it moved by more than
0.01 °C (or when there was no previous value), and the ECG/ADC/packet
counters are copied from the snapshot. -/
def updateStatistics (d : StatusData) (s : RealtimeState) : RealtimeState :=
  if s.shouldUpdateCounters = false then s
  else
    let s1 :=
      match d.currentTemp with
      | none => s
      | some raw =>
          let tempC : ℚ := (raw : ℚ) / 100
          let s2 := { s with displayedTemp := some tempC, frozenTemp := some tempC }
          match s.lastTemperature with
          | none => pushTemperature tempC s2
          | some t => if 1 / 100 < |tempC - t| then pushTemperature tempC s2 else s2
    { s1 with frozenEcg := d.ecgSamples, frozenAdc := d.adcSamples,
              frozenPackets := d.packetCount }

/-- Example status snapshot used to instantiate theorems. -/
def exStatus : StatusData := ⟨some 3650, 100, 200, 7⟩

/-- Example realtime state with the counters frozen
(`shouldUpdateCounters = false`). -/
def exFrozenState : RealtimeState :=
  ⟨false, 1, 2, 3, some 36, [36], [0], some 36, some 36⟩

/-! ## Theorems for the window cursor -/

/-- C1 counterexample: the full invariant is not preserved by the slider
operation.  The state `⟨windowSize 4, position 0, totalCount 10,
maxPosition 6⟩` satisfies the invariant and the claim's preconditions, yet
`sliderNavigation 7` stores position 7 > maxPosition 6, because the source
stores `parseInt(value)` without clamping. -/
theorem windowInvariant_not_preserved_cex :
    windowInvariant ⟨4, 0, 10, 6⟩ ∧ (0 : ℤ) ≤ 10 ∧ (0 : ℤ) < 4 ∧
    ¬ windowInvariant (sliderNavigation 7 ⟨4, 0, 10, 6⟩) := by
  decide

/-- C1 amended: with `windowSize > 0` and `0 ≤ position ≤ maxPosition`,
navigation preserves `0 ≤ position ≤ maxPosition`; resize leaves the new
position nonnegative with `position + windowSize ≤ totalCount` or
`position = 0`; the slider operation stores its argument unclamped (and no
operation recomputes `maxPosition`, which is refreshed from the server). -/
theorem window_ops_amended_invariant (s : HistState) (d : NavDirection) (n v : ℤ)
    (hw : 0 < s.currentWindowSize)
    (hpos : 0 ≤ s.currentPosition)
    (hmax : s.currentPosition ≤ s.maxSliderPosition) :
    (0 ≤ (navigateData d s).currentPosition ∧
      (navigateData d s).currentPosition ≤ (navigateData d s).maxSliderPosition) ∧
    (0 ≤ (changeWindowSize n s).currentPosition ∧
      ((changeWindowSize n s).currentPosition + (changeWindowSize n s).currentWindowSize ≤
          (changeWindowSize n s).totalDataCount ∨
        (changeWindowSize n s).currentPosition = 0)) ∧
    (sliderNavigation v s).currentPosition = v := by
  have hstep : 0 ≤ s.currentWindowSize / 2 := Int.ediv_nonneg (le_of_lt hw) (by norm_num)
  refine ⟨?_, ?_, rfl⟩
  · cases d <;> simp only [navigateData] <;> constructor <;> omega
  · by_cases hn : n = -1
    · simp [changeWindowSize, hn]
    · simp only [changeWindowSize, if_neg hn]
      constructor
      · split_ifs with h1
        · simp only [max_def]; split_ifs <;> omega
        · exact hpos
      · split_ifs with h1
        · simp only [max_def]; split_ifs <;> omega
        · omega

/-- C1 amended, witness at `s = ⟨4, 0, 10, 6⟩`, `d = next`, `n = 2`,
`v = 7`. -/
theorem window_ops_amended_invariant_witness :
    (0 : ℤ) < 4 ∧ (0 : ℤ) ≤ 0 ∧ (0 : ℤ) ≤ 6 ∧
    ((0 ≤ (navigateData .next ⟨4, 0, 10, 6⟩).currentPosition ∧
      (navigateData .next ⟨4, 0, 10, 6⟩).currentPosition ≤
        (navigateData .next ⟨4, 0, 10, 6⟩).maxSliderPosition) ∧
    (0 ≤ (changeWindowSize 2 ⟨4, 0, 10, 6⟩).currentPosition ∧
      ((changeWindowSize 2 ⟨4, 0, 10, 6⟩).currentPosition +
          (changeWindowSize 2 ⟨4, 0, 10, 6⟩).currentWindowSize ≤
          (changeWindowSize 2 ⟨4, 0, 10, 6⟩).totalDataCount ∨
        (changeWindowSize 2 ⟨4, 0, 10, 6⟩).currentPosition = 0)) ∧
    (sliderNavigation 7 ⟨4, 0, 10, 6⟩).currentPosition = 7) :=
  ⟨by decide, by decide, by decide,
    window_ops_amended_invariant ⟨4, 0, 10, 6⟩ .next 2 7 (by decide) (by decide) (by decide)⟩

/-- C2 counterexample: with `maxPosition = 6`, the input `7 > 6` is stored
as position 7, not clamped to 6: the source performs
`currentPosition = parseInt(value)` with no clamping. -/
theorem sliderNavigation_unclamped_cex :
    (6 : ℤ) < 7 ∧
    (sliderNavigation 7 ⟨4, 0, 10, 6⟩).currentPosition = 7 ∧
    (sliderNavigation 7 ⟨4, 0, 10, 6⟩).currentPosition ≠
      (⟨4, 0, 10, 6⟩ : HistState).maxSliderPosition := by
  decide

/-- C2 amended: `sliderNavigation p` stores `p` itself as the position for
every input, with no clamping (any range enforcement comes from the slider
element's own min/max bounds), and leaves every other field unchanged. -/
theorem sliderNavigation_stores_raw_value (v : ℤ) (s : HistState) :
    (sliderNavigation v s).currentPosition = v ∧
    (sliderNavigation v s).currentWindowSize = s.currentWindowSize ∧
    (sliderNavigation v s).totalDataCount = s.totalDataCount ∧
    (sliderNavigation v s).maxSliderPosition = s.maxSliderPosition :=
  ⟨rfl, rfl, rfl, rfl⟩

/-- C3 confirmed: `navigateData` uses step `⌊windowSize / 2⌋`, sends
`start` to 0, `end` to `maxPosition`, clamps `prev` at 0 and `next` at
`maxPosition`; on `totalCount = 10000, windowSize = 1000, position = 9500,
maxPosition = 9000`, `navigate('next')` yields 9000. -/
theorem navigateData_directions_spec (s : HistState) :
    (navigateData .start s).currentPosition = 0 ∧
    (navigateData .prev s).currentPosition =
      max 0 (s.currentPosition - ⌊(s.currentWindowSize : ℚ) / 2⌋) ∧
    (navigateData .next s).currentPosition =
      min s.maxSliderPosition (s.currentPosition + ⌊(s.currentWindowSize : ℚ) / 2⌋) ∧
    (navigateData .end_ s).currentPosition = s.maxSliderPosition ∧
    (navigateData .next ⟨1000, 9500, 10000, 9000⟩).currentPosition = 9000 := by
  have hfloor : ⌊(s.currentWindowSize : ℚ) / 2⌋ = s.currentWindowSize / 2 := by
    simpa using Rat.floor_intCast_div_natCast s.currentWindowSize 2
  refine ⟨rfl, ?_, ?_, rfl, by decide⟩
  · rw [hfloor]; rfl
  · rw [hfloor]; rfl

/-- C4 confirmed: `changeWindowSize (-1)` sets the window to the whole
dataset at position 0 (checked on `totalCount = 5000`), and any other size
is stored verbatim with the position pulled back only when the window
would spill past the end of the dataset. -/
theorem changeWindowSize_spec (s : HistState) (n : ℤ) (h : n ≠ -1) :
    ((changeWindowSize (-1) s).currentWindowSize = s.totalDataCount ∧
      (changeWindowSize (-1) s).currentPosition = 0) ∧
    ((changeWindowSize (-1) ⟨1000, 300, 5000, 4000⟩).currentWindowSize = 5000 ∧
      (changeWindowSize (-1) ⟨1000, 300, 5000, 4000⟩).currentPosition = 0) ∧
    ((changeWindowSize n s).currentWindowSize = n ∧
      (changeWindowSize n s).currentPosition =
        if s.totalDataCount < s.currentPosition + n then
          max 0 (s.totalDataCount - n)
        else s.currentPosition) := by
  refine ⟨⟨?_, ?_⟩, by decide, ?_, ?_⟩ <;>
    simp [changeWindowSize, h]

/-- C4 witness at `s = ⟨1000, 300, 5000, 4000⟩`, `n = 500`. -/
theorem changeWindowSize_spec_witness :
    (500 : ℤ) ≠ -1 ∧
    (((changeWindowSize (-1) ⟨1000, 300, 5000, 4000⟩).currentWindowSize =
        (⟨1000, 300, 5000, 4000⟩ : HistState).totalDataCount ∧
      (changeWindowSize (-1) ⟨1000, 300, 5000, 4000⟩).currentPosition = 0) ∧
    ((changeWindowSize (-1) ⟨1000, 300, 5000, 4000⟩).currentWindowSize = 5000 ∧
      (changeWindowSize (-1) ⟨1000, 300, 5000, 4000⟩).currentPosition = 0) ∧
    ((changeWindowSize 500 ⟨1000, 300, 5000, 4000⟩).currentWindowSize = 500 ∧
      (changeWindowSize 500 ⟨1000, 300, 5000, 4000⟩).currentPosition =
        if (⟨1000, 300, 5000, 4000⟩ : HistState).totalDataCount <
            (⟨1000, 300, 5000, 4000⟩ : HistState).currentPosition + 500 then
          max 0 ((⟨1000, 300, 5000, 4000⟩ : HistState).totalDataCount - 500)
        else (⟨1000, 300, 5000, 4000⟩ : HistState).currentPosition)) :=
  ⟨by decide, changeWindowSize_spec ⟨1000, 300, 5000, 4000⟩ 500 (by decide)⟩

/-! ## Theorems for the notification buffer -/

/-- A push on a buffer within capacity drops exactly the overflow (0 or 1
elements) from the front of the appended list. -/
theorem bufPush_eq_drop {α : Type} (cap : ℕ) (buf : List α) (x : α)
    (h : buf.length ≤ cap) :
    bufPush cap buf x = (buf ++ [x]).drop (buf.length + 1 - cap) := by
  simp only [bufPush, List.length_append, List.length_singleton]
  split_ifs with hc
  · have h1 : buf.length + 1 - cap = 1 := by omega
    rw [h1]
  · have h1 : buf.length + 1 - cap = 0 := by omega
    rw [h1, List.drop_zero]

/-- Length after a push, for a buffer within capacity. -/
theorem bufPush_length {α : Type} (cap : ℕ) (buf : List α) (x : α)
    (h : buf.length ≤ cap) :
    (bufPush cap buf x).length = min (buf.length + 1) cap := by
  rw [bufPush_eq_drop cap buf x h, List.length_drop, List.length_append,
    List.length_singleton]
  omega

/-- Folding pushes over any starting buffer within capacity keeps exactly
the trailing `cap` elements of the concatenation. -/
theorem foldl_bufPush {α : Type} (cap : ℕ) :
    ∀ (l buf : List α), buf.length ≤ cap →
      List.foldl (bufPush cap) buf l = (buf ++ l).drop (buf.length + l.length - cap)
  | [], buf, h => by
      have h0 : buf.length + List.length ([] : List α) - cap = 0 := by
        simp only [List.length_nil, Nat.add_zero]
        omega
      rw [List.foldl_nil, List.append_nil, h0, List.drop_zero]
  | x :: xs, buf, h => by
      have hlen : (bufPush cap buf x).length ≤ cap := by
        rw [bufPush_length cap buf x h]
        omega
      rw [List.foldl_cons, foldl_bufPush cap xs (bufPush cap buf x) hlen,
        bufPush_length cap buf x h, bufPush_eq_drop cap buf x h]
      have hn : buf.length + 1 - cap ≤ (buf ++ [x]).length := by
        simp only [List.length_append, List.length_singleton]
        omega
      rw [← List.drop_append_of_le_length hn, List.drop_drop,
        List.append_assoc, List.singleton_append]
      congr 1
      simp only [List.length_cons]
      omega

/-- C5 confirmed: pushing more than 10 items through the capacity-10
notification buffer leaves exactly the 10 most recently pushed items in
insertion order; a push at capacity evicts exactly the oldest element; and
after 11 pushes the length is 10 with the first-pushed item absent. -/
theorem notificationBuffer_keeps_last_ten (l : List ℕ) (h : 10 < l.length) :
    (pushAll 10 l).length = 10 ∧
    pushAll 10 l = l.drop (l.length - 10) ∧
    (∀ (buf : List ℕ) (x : ℕ), buf.length = 10 →
      bufPush 10 buf x = buf.drop 1 ++ [x]) ∧
    (pushAll 10 (List.range 11)).length = 10 ∧
    0 ∉ pushAll 10 (List.range 11) := by
  have hmain : pushAll 10 l = l.drop (l.length - 10) := by
    unfold pushAll
    rw [foldl_bufPush 10 l [] (by simp)]
    simp
  refine ⟨?_, hmain, ?_, by decide, by decide⟩
  · rw [hmain, List.length_drop]
    omega
  · intro buf x hb
    rw [bufPush_eq_drop 10 buf x (le_of_eq hb), hb]
    have h1 : (10 : ℕ) + 1 - 10 = 1 := by norm_num
    rw [h1, List.drop_append_of_le_length (by omega)]

/-- C5 witness at the concrete push sequence `0, 1, ..., 10`. -/
theorem notificationBuffer_keeps_last_ten_witness :
    10 < (List.range 11).length ∧
    ((pushAll 10 (List.range 11)).length = 10 ∧
     pushAll 10 (List.range 11) =
       (List.range 11).drop ((List.range 11).length - 10) ∧
     (∀ (buf : List ℕ) (x : ℕ), buf.length = 10 →
       bufPush 10 buf x = buf.drop 1 ++ [x]) ∧
     (pushAll 10 (List.range 11)).length = 10 ∧
     0 ∉ pushAll 10 (List.range 11)) :=
  ⟨by decide, notificationBuffer_keeps_last_ten (List.range 11) (by decide)⟩

/-- C6 counterexample: push one notification (badge shows "1"), then
dismiss it with `removeNotification`: the buffer is empty but the badge
text is still "1", because `removeNotification` never refreshes the
badge. -/
theorem removeNotification_stale_counter_cex :
    (removeNotification 0 (showNotification 0 notifInit)).notifications.length = 0 ∧
    (removeNotification 0 (showNotification 0 notifInit)).counterText = "1" ∧
    (removeNotification 0 (showNotification 0 notifInit)).counterText ≠
      toString
        (removeNotification 0 (showNotification 0 notifInit)).notifications.length := by
  decide

/-- C6 amended: the badge text equals the buffer length after every push
and after clear-all (when the badge element exists), but an explicit
single-notification removal leaves the badge text unchanged — stale until
the next push or clear. -/
theorem counter_tracks_push_and_clear (s : NotifState) (x : ℕ)
    (h : s.notifications.length ≤ 99) :
    (showNotification x s).counterText =
      toString (showNotification x s).notifications.length ∧
    ((clearAll s).counterExists = true → (clearAll s).counterText = "0") ∧
    (removeNotification x s).counterText = s.counterText := by
  have hlen : (bufPush 10 s.notifications x).length ≤ 99 := by
    simp only [bufPush, List.length_append, List.length_singleton]
    split_ifs with hc
    · rw [List.length_drop]
      simp only [List.length_append, List.length_singleton]
      omega
    · simp only [List.length_append, List.length_singleton]
      omega
  refine ⟨?_, ?_, rfl⟩
  · simp only [showNotification, updateCounter]
    split_ifs with hc
    · simp only [displayCount]
      rw [if_neg (by omega)]
    · exfalso
      simp at hc
  · simp only [clearAll, updateCounter]
    split_ifs with hc
    · intro _
      rfl
    · intro habs
      exfalso
      simp only [Bool.or_eq_true, decide_eq_true_eq] at hc
      exact hc (Or.inl habs)

/-- C6 amended, witness at the initial manager state and notification 0. -/
theorem counter_tracks_push_and_clear_witness :
    notifInit.notifications.length ≤ 99 ∧
    ((showNotification 0 notifInit).counterText =
      toString (showNotification 0 notifInit).notifications.length ∧
     ((clearAll notifInit).counterExists = true →
       (clearAll notifInit).counterText = "0") ∧
     (removeNotification 0 notifInit).counterText = notifInit.counterText) :=
  ⟨by decide, counter_tracks_push_and_clear notifInit 0 (by decide)⟩

/-! ## Theorems for the temperature rolling history -/

/-- After `n` TEMP chart pushes the stored value array has length `n`:
nothing ever evicts from it. -/
theorem tempChartPushN_values_length :
    ∀ n : ℕ, (tempChartPushN n).values.length = n
  | 0 => rfl
  | n + 1 => by
      simp [tempChartPushN, tempChartPush, tempChartPushN_values_length n]

/-- C7 counterexample: after 1201 pushes the stored temperature history has
length 1201, exceeding the display capacity `MAX_TEMP_DISPLAY = 1200`: the
source never truncates `temperatureHistory`, it only slices the last 1200
entries for display. -/
theorem temperatureHistory_unbounded_cex :
    ¬ (tempChartPushN 1201).values.length ≤ MAX_TEMP_DISPLAY := by
  rw [tempChartPushN_values_length 1201]
  decide

/-- C7 amended: each TEMP push grows the stored history by one without
bound; only the displayed series — the slice of the last 1200 stored
values — is bounded by 1200, and it is a suffix of the stored sequence
(the most recent entries, oldest dropped from display first). -/
theorem temperature_display_bounded (h : TempHistory) (raw : ℚ) :
    (tempChartPush raw h).values.length = h.values.length + 1 ∧
    (sliceLast MAX_TEMP_DISPLAY (tempChartPush raw h).values).length =
      min (tempChartPush raw h).values.length MAX_TEMP_DISPLAY ∧
    (sliceLast MAX_TEMP_DISPLAY (tempChartPush raw h).values).length ≤
      MAX_TEMP_DISPLAY ∧
    (sliceLast MAX_TEMP_DISPLAY (tempChartPush raw h).values).IsSuffix
      (tempChartPush raw h).values := by
  refine ⟨by simp [tempChartPush], ?_, ?_, List.drop_suffix _ _⟩
  · simp only [sliceLast, List.length_drop]
    omega
  · simp only [sliceLast, List.length_drop]
    omega

/-! ## Theorems for the proportional time bounds -/

/-- C8 confirmed: the TEMP window bounds are
`start + (position/totalCount)·duration` and
`start + (position/totalCount + windowLength/totalCount)·duration`; for
`position = 0` and a window covering the whole dataset they are exactly
`[start, start + duration]` (given `totalCount > 0`). -/
theorem histTemp_proportional_bounds (start dur pos total len : ℚ)
    (h : 0 < total) :
    (histTempWindowBounds start dur pos total len).1 =
      start + pos / total * dur ∧
    (histTempWindowBounds start dur pos total len).2 =
      start + (pos / total + len / total) * dur ∧
    (histTempWindowBounds start dur 0 total total).1 = start ∧
    (histTempWindowBounds start dur 0 total total).2 = start + dur := by
  have ht : total / total = 1 := div_self (ne_of_gt h)
  refine ⟨?_, ?_, ?_, ?_⟩
  · simp only [histTempWindowBounds]
    ring
  · simp only [histTempWindowBounds]
    ring
  · simp [histTempWindowBounds]
  · simp [histTempWindowBounds, ht]

/-- C8 witness at `start = 100, duration = 50, position = 7,
totalCount = 10, windowLength = 3`. -/
theorem histTemp_proportional_bounds_witness :
    (0 : ℚ) < 10 ∧
    ((histTempWindowBounds 100 50 7 10 3).1 = 100 + 7 / 10 * 50 ∧
     (histTempWindowBounds 100 50 7 10 3).2 = 100 + (7 / 10 + 3 / 10) * 50 ∧
     (histTempWindowBounds 100 50 0 10 10).1 = 100 ∧
     (histTempWindowBounds 100 50 0 10 10).2 = 100 + 50) :=
  ⟨by norm_num, histTemp_proportional_bounds 100 50 7 10 3 (by norm_num)⟩

/-! ## Theorems for payload defaulting -/

/-- C9 confirmed: a payload missing all its numeric fields still renders,
every rendering function being total on optional fields: the TEMP card
shows temperature 0, threshold 0, duration 0; the ECG/PIEZO card shows
error 0, threshold 1 (the division-safe neutral default) and exceedance
0 %; the notification details show 0, 0, 0. -/
theorem missing_fields_defaulted (a : AnomalyPayload)
    (he : a.reconstruction_error = none) (ht : a.threshold = none)
    (htm : a.temperature = none) (hd : a.duration_readings = none) :
    createAnomalyCardTemp a = ⟨0, 0, 0⟩ ∧
    createAnomalyCardEcg a = ⟨0, 1, 0⟩ ∧
    notificationDetailValues a = (0, 0, 0) := by
  simp [createAnomalyCardTemp, createAnomalyCardEcg, notificationDetailValues,
    he, ht, htm, hd]

/-- C9 witness at the fully-missing payload. -/
theorem missing_fields_defaulted_witness :
    (⟨none, none, none, none⟩ : AnomalyPayload).reconstruction_error = none ∧
    (⟨none, none, none, none⟩ : AnomalyPayload).threshold = none ∧
    (⟨none, none, none, none⟩ : AnomalyPayload).temperature = none ∧
    (⟨none, none, none, none⟩ : AnomalyPayload).duration_readings = none ∧
    (createAnomalyCardTemp ⟨none, none, none, none⟩ = ⟨0, 0, 0⟩ ∧
     createAnomalyCardEcg ⟨none, none, none, none⟩ = ⟨0, 1, 0⟩ ∧
     notificationDetailValues ⟨none, none, none, none⟩ = (0, 0, 0)) :=
  ⟨rfl, rfl, rfl, rfl,
    missing_fields_defaulted ⟨none, none, none, none⟩ rfl rfl rfl rfl⟩

/-! ## Theorems for the frozen-counters frame property -/

/-- C10 confirmed: when `shouldUpdateCounters` is false, `updateStatistics`
returns before any mutation: the frozen stats, the temperature history
(values and times), the last recorded temperature and the displayed
temperature are all exactly unchanged. -/
theorem updateStatistics_frozen_noop (d : StatusData) (s : RealtimeState)
    (h : s.shouldUpdateCounters = false) :
    (updateStatistics d s).frozenEcg = s.frozenEcg ∧
    (updateStatistics d s).frozenAdc = s.frozenAdc ∧
    (updateStatistics d s).frozenPackets = s.frozenPackets ∧
    (updateStatistics d s).frozenTemp = s.frozenTemp ∧
    (updateStatistics d s).tempValues = s.tempValues ∧
    (updateStatistics d s).tempTimes = s.tempTimes ∧
    (updateStatistics d s).lastTemperature = s.lastTemperature ∧
    (updateStatistics d s).displayedTemp = s.displayedTemp := by
  simp [updateStatistics, h]

/-- C10 witness at a concrete frozen state and status snapshot. -/
theorem updateStatistics_frozen_noop_witness :
    exFrozenState.shouldUpdateCounters = false ∧
    ((updateStatistics exStatus exFrozenState).frozenEcg = exFrozenState.frozenEcg ∧
     (updateStatistics exStatus exFrozenState).frozenAdc = exFrozenState.frozenAdc ∧
     (updateStatistics exStatus exFrozenState).frozenPackets =
       exFrozenState.frozenPackets ∧
     (updateStatistics exStatus exFrozenState).frozenTemp = exFrozenState.frozenTemp ∧
     (updateStatistics exStatus exFrozenState).tempValues = exFrozenState.tempValues ∧
     (updateStatistics exStatus exFrozenState).tempTimes = exFrozenState.tempTimes ∧
     (updateStatistics exStatus exFrozenState).lastTemperature =
       exFrozenState.lastTemperature ∧
     (updateStatistics exStatus exFrozenState).displayedTemp =
       exFrozenState.displayedTemp) :=
  ⟨rfl, updateStatistics_frozen_noop exStatus exFrozenState rfl⟩
